import Mathlib

/-!
Shallow embedding of the `nimora-backend-apis` video-generation pipeline.

The embedding follows the source files:
  * `app/schemas/agents.py`, `app/schemas/generation.py` — the pydantic records;
  * `app/services/orchestrator.py` — `VideoOrchestrator.process_request` and
    `VideoOrchestrator._save_assets`;
  * `app/agents/generation_agent.py` — `GenerationAgent._poll_generation`;
  * `app/agents/base_agent.py` + `app/agents/continuity_agent.py` — the output
    validation performed by `BaseAgent.execute` for `ContinuityControlOutput`;
  * `app/api/v1/endpoints/generation.py` — the `generate_video` endpoint.

LLM calls are modelled as oracle functions supplied from outside (one value per
iteration index, so the model quantifies over every possible sequence of agent
decisions).  Floats in the source carry only scores compared for equality and
thresholds, so they are modelled as rationals.  Python exceptions are modelled
with `Except`.
-/

namespace Nimora

/-- Python truthiness-based `a or d` on an optional string
(`None` and the empty string are falsy). -/
def pyOrStr (a : Option String) (d : String) : String :=
  match a with
  | none => d
  | some s => if s = "" then d else s

/-- Python `str()` of a boolean, as rendered inside an f-string. -/
def pyStrBool (b : Bool) : String := if b then "True" else "False"

/-- Python f-string rendering of an `Optional[str]` (`None` prints as `"None"`). -/
def pyStrOpt (a : Option String) : String :=
  match a with
  | none => "None"
  | some s => s

/-- `app/schemas/agents.py` — `ConceptOutput`. -/
structure ConceptOutput where
  title : String
  storytelling_concept : String
  aesthetic_direction : String
  lighting_mood : String
  product_focus_strategy : String
  narrative_flow : String
deriving DecidableEq, Repr

/-- `app/schemas/agents.py` — `SceneDetail`. -/
structure SceneDetail where
  sequence_number : ℤ
  description : String
  camera_angle : String
  camera_movement : String
  lighting_setup : String
  focus_points : List String
  duration_estimate : ℚ
deriving DecidableEq, Repr

/-- `app/schemas/agents.py` — `VisualDirectorOutput`. -/
structure VisualDirectorOutput where
  visual_style_summary : String
  scenes : List SceneDetail
  technical_notes : String
deriving DecidableEq, Repr

/-- `app/schemas/agents.py` — `PromptRefinementOutput`. -/
structure PromptRefinementOutput where
  final_prompt : String
  individual_prompts : List String := []
  rationale : String
  negative_prompt : Option String := none
deriving DecidableEq, Repr

/-- `app/schemas/agents.py` — `QAAgentOutput`. -/
structure QAAgentOutput where
  score : ℚ
  feedback : String
  critique_points : List String
  approved : Bool
deriving DecidableEq, Repr

/-- `app/schemas/agents.py` — `GenerationOutput`. -/
structure GenerationOutput where
  video_url : String
  generation_id : String
  status : String
deriving DecidableEq, Repr

/-- `app/schemas/agents.py` — `ImageAnalysisOutput`. -/
structure ImageAnalysisOutput where
  jewellery_type : String
  materials : String
  gemstones : String
  design_style : String
  detailed_features : String
  color_palette : String
  visual_context_summary : String
deriving DecidableEq, Repr

/-- `app/schemas/agents.py` — `ContinuityControlOutput`.
`violation_type` defaults to `None` and `approved` defaults to `False`,
exactly as in the pydantic declaration. -/
structure ContinuityControlOutput where
  score : ℚ
  feedback : String
  violation_type : Option String := none
  approved : Bool := false
deriving DecidableEq, Repr

/-- `app/schemas/generation.py` — `GenerationRequest`. -/
structure GenerationRequest where
  product_description : Option String := none
  jewellery_type : String
  gender : String
  video_type : String
  duration : ℤ
  base64_image : String
  is_music : Bool
  is_model : Bool
  model_consistency : Bool := true
  reference_video_path : Option String := none
deriving DecidableEq, Repr

/-- `app/schemas/generation.py` — `GenerationResponse`.
`individual_prompts` has pydantic `default_factory=list`, so a constructor
call that omits the field yields the empty list. -/
structure GenerationResponse where
  video_url : String
  generation_id : String
  status : String
  concept : ConceptOutput
  visual_plan : VisualDirectorOutput
  final_prompt : String
  individual_prompts : List String := []
  qa_score : ℚ
  feedback_iterations : ℕ
deriving DecidableEq, Repr

/-- The context dictionary `PromptRefinementAgent.run` builds and hands to the
LLM call (`app/agents/prompt_refinement_agent.py`, `run`). -/
structure RefineContext where
  concept : ConceptOutput
  visual_plan : VisualDirectorOutput
  previous_feedback : Option String
  reference_video_path : Option String
  model_consistency_enabled : Bool
deriving DecidableEq, Repr

/-- The arguments the orchestrator passes to `ContinuityControlAgent.run`. -/
structure ContinuityArgs where
  final_prompt : PromptRefinementOutput
  visual_plan : VisualDirectorOutput
  is_model : Bool
  video_type : String
deriving DecidableEq, Repr

/-- The keyword arguments of `GenerationAgent.run` as invoked by the
orchestrator (`orchestrator.py`, lines 118-125). -/
structure GenArgs where
  prompt : String
  image_url : String
  video_type : String
  duration : ℤ
  is_music : Bool
  is_model : Bool
deriving DecidableEq, Repr

/-- Observable events of one `process_request` run, used to state temporal
claims about the order and data of the agent invocations. -/
inductive Event where
  | refineCall (iter : ℕ) (ctx : RefineContext) (out : PromptRefinementOutput)
  | qaCall (iter : ℕ) (out : QAAgentOutput)
  | continuityCall (iter : ℕ) (out : ContinuityControlOutput)
  | generationCall (prompt : String)
deriving DecidableEq, Repr

/-- The LLM / remote-service behaviour a run is executed against.  Each agent
is an oracle; the refinement-loop agents additionally take the iteration
number so that repeated calls may answer differently. -/
structure AgentOracles where
  imageAnalysis : String → ImageAnalysisOutput
  concept : String → ConceptOutput
  visualDirector : ConceptOutput → Option String → VisualDirectorOutput
  refine : ℕ → RefineContext → PromptRefinementOutput
  qa : ℕ → PromptRefinementOutput → String → QAAgentOutput
  continuity : ℕ → ContinuityArgs → ContinuityControlOutput
  generate : GenArgs → Except String GenerationOutput

/-- `PromptRefinementAgent.run` (`prompt_refinement_agent.py`): builds the
context dictionary from its parameters.  The parameter list and default
values mirror the Python signature
`run(concept, visual_plan, feedback=None, image_url=None, reference_video=None,
model_consistency=True)`; `image_url` is forwarded to the LLM call separately
and does not enter the context. -/
def refineContextOf (concept : ConceptOutput) (visual_plan : VisualDirectorOutput)
    (feedback : Option String := none) (image_url : Option String := none)
    (reference_video : Option String := none) (model_consistency : Bool := true) :
    RefineContext :=
  { concept := concept
    visual_plan := visual_plan
    previous_feedback := feedback
    reference_video_path := reference_video
    model_consistency_enabled := model_consistency }

/-- The `qa_description` string built in the loop body
(`orchestrator.py`, line 81). -/
def qaDescription (request : GenerationRequest) : String :=
  "Target: " ++ request.video_type ++ " video for " ++ request.jewellery_type ++
    ". Description: " ++ pyOrStr request.product_description "None"

/-- The loop-local state of the refinement loop (`orchestrator.py`,
lines 61-69): `feedback`, `final_prompt_output`, `qa_score`, `iterations`,
`last_continuity_output`, `last_qa_output`, plus the `break` flag and the
event trace of the run so far. -/
structure LoopState where
  feedback : Option String := none
  final_prompt_output : Option PromptRefinementOutput := none
  qa_score : ℚ := 0
  iterations : ℕ := 0
  last_continuity_output : Option ContinuityControlOutput := none
  last_qa_output : Option QAAgentOutput := none
  broke : Bool := false
  events : List Event := []
deriving DecidableEq, Repr

/-- The refinement context of iteration `i+1`: the orchestrator calls
`prompt_refinement_agent.run(concept, visual_plan, feedback)` with three
positional arguments, so `reference_video` and `model_consistency` keep
their defaults. -/
def iterCtx (concept : ConceptOutput) (visual_plan : VisualDirectorOutput)
    (st : LoopState) : RefineContext :=
  refineContextOf concept visual_plan st.feedback

/-- The prompt produced in iteration `i+1`. -/
def iterPrompt (ag : AgentOracles) (concept : ConceptOutput)
    (visual_plan : VisualDirectorOutput) (i : ℕ) (st : LoopState) :
    PromptRefinementOutput :=
  ag.refine (i + 1) (iterCtx concept visual_plan st)

/-- The QA verdict of iteration `i+1` (`qa_agent.run(final_prompt_output,
qa_description)`). -/
def iterQA (ag : AgentOracles) (request : GenerationRequest)
    (concept : ConceptOutput) (visual_plan : VisualDirectorOutput)
    (i : ℕ) (st : LoopState) : QAAgentOutput :=
  ag.qa (i + 1) (iterPrompt ag concept visual_plan i st) (qaDescription request)

/-- The Continuity verdict of iteration `i+1` (`continuity_agent.run(
final_prompt=..., visual_plan=..., is_model=..., video_type=...)`). -/
def iterCont (ag : AgentOracles) (request : GenerationRequest)
    (concept : ConceptOutput) (visual_plan : VisualDirectorOutput)
    (i : ℕ) (st : LoopState) : ContinuityControlOutput :=
  ag.continuity (i + 1)
    { final_prompt := iterPrompt ag concept visual_plan i st
      visual_plan := visual_plan
      is_model := request.is_model
      video_type := request.video_type }

/-- One iteration of the `for i in range(max_iterations)` body
(`orchestrator.py`, lines 71-111).  `continue` is modelled by returning the
updated state with `broke := false` inherited; `break` sets `broke := true`. -/
def loopIter (ag : AgentOracles) (request : GenerationRequest)
    (concept : ConceptOutput) (visual_plan : VisualDirectorOutput)
    (i : ℕ) (st : LoopState) : LoopState :=
  let p := iterPrompt ag concept visual_plan i st
  let q := iterQA ag request concept visual_plan i st
  let st1 : LoopState :=
    { st with
      iterations := i + 1
      final_prompt_output := some p
      last_qa_output := some q
      qa_score := q.score
      events := st.events ++
        [Event.refineCall (i + 1) (iterCtx concept visual_plan st) p,
         Event.qaCall (i + 1) q] }
  if q.approved = false then
    { st1 with feedback := some ("QA Creative Feedback: " ++ q.feedback) }
  else
    let co := iterCont ag request concept visual_plan i st
    let st2 : LoopState :=
      { st1 with
        last_continuity_output := some co
        events := st1.events ++ [Event.continuityCall (i + 1) co] }
    if co.approved = false then
      { st2 with
        feedback := some ("STRICT RULE VIOLATION (" ++
          pyStrOpt co.violation_type ++ "): " ++ co.feedback) }
    else
      { st2 with broke := true }

/-- The state produced by a loop iteration whose QA gate rejected. -/
def qaRejState (ag : AgentOracles) (request : GenerationRequest)
    (concept : ConceptOutput) (visual_plan : VisualDirectorOutput)
    (i : ℕ) (st : LoopState) : LoopState :=
  { st with
    iterations := i + 1
    final_prompt_output := some (iterPrompt ag concept visual_plan i st)
    last_qa_output := some (iterQA ag request concept visual_plan i st)
    qa_score := (iterQA ag request concept visual_plan i st).score
    events := st.events ++
      [Event.refineCall (i + 1) (iterCtx concept visual_plan st)
        (iterPrompt ag concept visual_plan i st),
       Event.qaCall (i + 1) (iterQA ag request concept visual_plan i st)]
    feedback := some ("QA Creative Feedback: " ++
      (iterQA ag request concept visual_plan i st).feedback) }

/-- The state produced by a loop iteration whose QA gate approved but whose
Continuity gate rejected. -/
def contRejState (ag : AgentOracles) (request : GenerationRequest)
    (concept : ConceptOutput) (visual_plan : VisualDirectorOutput)
    (i : ℕ) (st : LoopState) : LoopState :=
  { st with
    iterations := i + 1
    final_prompt_output := some (iterPrompt ag concept visual_plan i st)
    last_qa_output := some (iterQA ag request concept visual_plan i st)
    qa_score := (iterQA ag request concept visual_plan i st).score
    last_continuity_output := some (iterCont ag request concept visual_plan i st)
    events := st.events ++
      [Event.refineCall (i + 1) (iterCtx concept visual_plan st)
        (iterPrompt ag concept visual_plan i st),
       Event.qaCall (i + 1) (iterQA ag request concept visual_plan i st),
       Event.continuityCall (i + 1) (iterCont ag request concept visual_plan i st)]
    feedback := some ("STRICT RULE VIOLATION (" ++
      pyStrOpt (iterCont ag request concept visual_plan i st).violation_type ++
      "): " ++ (iterCont ag request concept visual_plan i st).feedback) }

/-- The state produced by a loop iteration on which both gates approved:
the loop breaks. -/
def approvedState (ag : AgentOracles) (request : GenerationRequest)
    (concept : ConceptOutput) (visual_plan : VisualDirectorOutput)
    (i : ℕ) (st : LoopState) : LoopState :=
  { st with
    iterations := i + 1
    final_prompt_output := some (iterPrompt ag concept visual_plan i st)
    last_qa_output := some (iterQA ag request concept visual_plan i st)
    qa_score := (iterQA ag request concept visual_plan i st).score
    last_continuity_output := some (iterCont ag request concept visual_plan i st)
    events := st.events ++
      [Event.refineCall (i + 1) (iterCtx concept visual_plan st)
        (iterPrompt ag concept visual_plan i st),
       Event.qaCall (i + 1) (iterQA ag request concept visual_plan i st),
       Event.continuityCall (i + 1) (iterCont ag request concept visual_plan i st)]
    broke := true }

/-- Execute loop iteration `i` unless the loop already hit `break`. -/
def guardedIter (ag : AgentOracles) (request : GenerationRequest)
    (concept : ConceptOutput) (visual_plan : VisualDirectorOutput)
    (i : ℕ) (st : LoopState) : LoopState :=
  if st.broke then st else loopIter ag request concept visual_plan i st

/-- The refinement loop: `for i in range(3)` with `break`, unrolled.  After a
`break` the remaining iterations do not execute (`broke` guard). -/
def runLoop (ag : AgentOracles) (request : GenerationRequest)
    (concept : ConceptOutput) (visual_plan : VisualDirectorOutput) : LoopState :=
  guardedIter ag request concept visual_plan 2
    (guardedIter ag request concept visual_plan 1
      (loopIter ag request concept visual_plan 0 {}))

/-- The `concept_input` brief string (`orchestrator.py`, lines 42-51). -/
def conceptInput (request : GenerationRequest) (visual_context : String) : String :=
  "Jewellery Type: " ++ request.jewellery_type ++ "\n" ++
  "Target Gender: " ++ request.gender ++ "\n" ++
  "Video Theme: " ++ request.video_type ++ "\n" ++
  "Model Included: " ++ pyStrBool request.is_model ++ "\n" ++
  "Music Enabled: " ++ pyStrBool request.is_music ++ "\n" ++
  "Duration: " ++ toString request.duration ++ " seconds\n" ++
  "Product Description: " ++ pyOrStr request.product_description "No description provided." ++ "\n" ++
  "Visual Analysis: " ++ visual_context

/-- Step 0 of `process_request`: the image-analysis visual context. -/
def orchestratorVisualContext (ag : AgentOracles) (request : GenerationRequest) : String :=
  (ag.imageAnalysis request.base64_image).visual_context_summary

/-- Step 1 of `process_request`: the concept. -/
def orchestratorConcept (ag : AgentOracles) (request : GenerationRequest) : ConceptOutput :=
  ag.concept (conceptInput request (orchestratorVisualContext ag request))

/-- Step 2 of `process_request`: the visual plan
(`visual_director_agent.run(concept, visual_context=visual_context)`). -/
def orchestratorPlan (ag : AgentOracles) (request : GenerationRequest) : VisualDirectorOutput :=
  ag.visualDirector (orchestratorConcept ag request)
    (some (orchestratorVisualContext ag request))

/-- Step 3 of `process_request`: the refinement loop, run on the derived
concept and plan. -/
def orchestratorLoop (ag : AgentOracles) (request : GenerationRequest) : LoopState :=
  runLoop ag request (orchestratorConcept ag request) (orchestratorPlan ag request)

/-- Whether a persistence side effect succeeds: one flag per fallible step of
`_save_assets` (directory creation, each artifact write, video download). -/
structure PersistWorld where
  mkdirOk : Bool := true
  writeOk : String → Bool := fun _ => true
  downloadOk : Bool := true

/-- The artifact files `_save_assets` writes (`orchestrator.py`, lines 161-167). -/
def artifactNames : List String :=
  ["concept.json", "visual_plan.json", "final_prompt.json",
   "qa_output.json", "continuity_output.json"]

/-- The body of the `try:` block of `_save_assets` (`orchestrator.py`,
lines 156-183): create the directory, write the five JSON artifacts, and
download the video when `video_url` is truthy.  Any failing step raises. -/
def saveAssetsBody (w : PersistWorld) (generation_id : String)
    (video_url : String) : Except String Unit :=
  if w.mkdirOk = false then
    Except.error ("makedirs failed for " ++ generation_id)
  else
    match artifactNames.find? (fun f => w.writeOk f = false) with
    | some f => Except.error ("write failed: " ++ f)
    | none =>
      if video_url = "" then Except.ok ()
      else if w.downloadOk = false then Except.error "video download failed"
      else Except.ok ()

/-- `VideoOrchestrator._save_assets` (`orchestrator.py`, lines 149-187): the
whole body runs inside `try: ... except Exception: logger.error(...)`, so an
exception is logged and NOT re-raised.  The artifact payloads are written to
disk only and do not influence control flow. -/
def saveAssets (w : PersistWorld) (generation_id : String) (video_url : String)
    (concept : ConceptOutput) (visual_plan : VisualDirectorOutput)
    (final_prompt : PromptRefinementOutput) (qa_output : Option QAAgentOutput)
    (continuity_output : Option ContinuityControlOutput) : Except String Unit :=
  match saveAssetsBody w generation_id video_url with
  | Except.ok _ => Except.ok ()
  | Except.error _ => Except.ok ()

/-- `VideoOrchestrator.process_request` (`orchestrator.py`, lines 29-147).
Returns the response together with the event trace of the run.  After the
loop the source reads `final_prompt_output.final_prompt`; the `none` branch
is Python's `AttributeError` (it is proved unreachable below). -/
def processRequest (ag : AgentOracles) (w : PersistWorld)
    (request : GenerationRequest) :
    Except String (GenerationResponse × List Event) :=
  match (orchestratorLoop ag request).final_prompt_output with
  | none => Except.error "AttributeError: NoneType has no attribute final_prompt"
  | some final_prompt_output =>
    match ag.generate
        { prompt := final_prompt_output.final_prompt
          image_url := request.base64_image
          video_type := request.video_type
          duration := request.duration
          is_music := request.is_music
          is_model := request.is_model } with
    | Except.error e => Except.error e
    | Except.ok generation_result =>
      match saveAssets w generation_result.generation_id generation_result.video_url
          (orchestratorConcept ag request) (orchestratorPlan ag request)
          final_prompt_output (orchestratorLoop ag request).last_qa_output
          (orchestratorLoop ag request).last_continuity_output with
      | Except.error e => Except.error e
      | Except.ok _ =>
        Except.ok
          ({ video_url := generation_result.video_url
             generation_id := generation_result.generation_id
             status := generation_result.status
             concept := orchestratorConcept ag request
             visual_plan := orchestratorPlan ag request
             final_prompt := final_prompt_output.final_prompt
             qa_score := (orchestratorLoop ag request).qa_score
             feedback_iterations := (orchestratorLoop ag request).iterations },
           (orchestratorLoop ag request).events ++
             [Event.generationCall final_prompt_output.final_prompt])

/-- Errors the `generate_video` endpoint can surface. -/
inductive EndpointError where
  | typeError (detail : String)
  | httpException (status_code : ℕ) (detail : String)
deriving DecidableEq, Repr

/-- `generate_video` (`app/api/v1/endpoints/generation.py`): the first log
line formats `request.product_description[:50]` BEFORE the `try:` block; on a
`None` description Python raises `TypeError` there, unhandled.  Inside the
`try`, any exception from the orchestrator becomes `HTTPException(500, ...)`. -/
def generate_video (ag : AgentOracles) (w : PersistWorld)
    (request : GenerationRequest) :
    Except EndpointError (GenerationResponse × List Event) :=
  match request.product_description with
  | none => Except.error (EndpointError.typeError "NoneType object is not subscriptable")
  | some _ =>
    match processRequest ag w request with
    | Except.ok r => Except.ok r
    | Except.error e => Except.error (EndpointError.httpException 500 e)

/-- A fragment of JSON values sufficient for the poll-response shapes and the
`ContinuityControlOutput` validation (`generation_agent.py`, `base_agent.py`). -/
inductive JVal where
  | jnull
  | jbool (b : Bool)
  | jnum (q : ℚ)
  | jstr (s : String)
  | jlist (xs : List String)
deriving DecidableEq, Repr

/-- Python truthiness of a JSON value (`None`, `False`, `0`, `""` and `[]`
are falsy). -/
def JVal.truthy : JVal → Bool
  | JVal.jnull => false
  | JVal.jbool b => b
  | JVal.jnum q => q ≠ 0
  | JVal.jstr s => s ≠ ""
  | JVal.jlist xs => !xs.isEmpty

/-- Python `a or b` on JSON values. -/
def pyOrJ (a b : JVal) : JVal := if a.truthy then a else b

/-- Lift an optional string field into a JSON value (`dict.get` result). -/
def optJ : Option String → JVal
  | none => JVal.jnull
  | some s => JVal.jstr s

/-- The string content of a JSON value; only ever read off a truthy value
produced by `completedVideoUrl`, which is a nonempty string. -/
def JVal.asStr : JVal → String
  | JVal.jstr s => s
  | _ => ""

/-- `output[0] if isinstance(output, list) and output else output`
(`generation_agent.py`, line 332). -/
def extractListHead : JVal → JVal
  | JVal.jlist (x :: _) => JVal.jstr x
  | v => v

/-- The `inner` dictionary of one 200-status poll response, with the fields
`_poll_generation` reads. -/
structure PollBody where
  status : Option String := none
  outputs : JVal := JVal.jnull
  output : JVal := JVal.jnull
  url : Option String := none
  video_url : Option String := none
  error : Option String := none
deriving DecidableEq, Repr

/-- One poll response: either a non-200 HTTP status or a 200 with a body. -/
inductive PollResponse where
  | non200 (code : ℕ)
  | http200 (body : PollBody)
deriving DecidableEq, Repr

/-- `status == "completed" or status == "success"`. -/
def isCompletedStatus (s : Option String) : Bool :=
  s = some "completed" || s = some "success"

/-- `status in ["failed", "canceled"]`. -/
def isFailedStatus (s : Option String) : Bool :=
  s = some "failed" || s = some "canceled"

/-- The video-url extraction chain of the success branch
(`generation_agent.py`, lines 328-336): `outputs or output`, first element of
a nonempty list, then the `url` / `video_url` fallbacks. -/
def completedVideoUrl (body : PollBody) : JVal :=
  let output := pyOrJ body.outputs body.output
  let video_url := extractListHead output
  if video_url.truthy then video_url
  else pyOrJ (optJ body.url) (optJ body.video_url)

/-- Errors `_poll_generation` raises. -/
inductive PollError where
  | runtimeError (msg : String)
  | timeoutError (msg : String)
deriving DecidableEq, Repr

/-- The poll loop `for i in range(max_retries)` (`generation_agent.py`,
lines 306-356), as a function of the sequence of poll responses: `i` is the
current attempt index, the second argument the remaining attempts.  A non-200
response sleeps and retries, consuming an attempt like any other. -/
def pollFrom (generation_id : String) (responses : ℕ → PollResponse) :
    ℕ → ℕ → Except PollError GenerationOutput
  | _, 0 =>
    Except.error (PollError.timeoutError "Generation timed out polling after 600 seconds.")
  | i, fuel + 1 =>
    match responses i with
    | PollResponse.non200 _ => pollFrom generation_id responses (i + 1) fuel
    | PollResponse.http200 body =>
      if isCompletedStatus body.status then
        let video_url := completedVideoUrl body
        if video_url.truthy then
          Except.ok
            { video_url := video_url.asStr
              generation_id := generation_id
              status := "success" }
        else
          Except.error (PollError.runtimeError "Job completed but no URL returned")
      else if isFailedStatus body.status then
        Except.error (PollError.runtimeError
          ("Generation failed: " ++ body.error.getD "Unknown error"))
      else
        pollFrom generation_id responses (i + 1) fuel

/-- `max_retries = 300` (`generation_agent.py`, line 302). -/
def max_retries : ℕ := 300

/-- `GenerationAgent._poll_generation`, starting at attempt 0 with the full
budget of 300 attempts. -/
def pollGeneration (generation_id : String) (responses : ℕ → PollResponse) :
    Except PollError GenerationOutput :=
  pollFrom generation_id responses 0 max_retries

/-- A poll response that neither completes nor fails the loop: a non-200
response, or a 200 whose status is not one of the four terminal values. -/
def PollResponse.nonTerminal : PollResponse → Bool
  | PollResponse.non200 _ => true
  | PollResponse.http200 body =>
    !(isCompletedStatus body.status || isFailedStatus body.status)

/-- Pydantic validation of `ContinuityControlOutput.model_validate(parsed_json)`
as performed in `BaseAgent.execute` (`base_agent.py`, lines 92-98): `score`
must be a number, `feedback` a string, `violation_type` is optional (absent or
`null` become `None`), `approved` is optional with declared default `False`.
No constraint ties `approved` to `score`, and no constraint restricts the
value of `score`. -/
def validateContinuityControlOutput (j : List (String × JVal)) :
    Option ContinuityControlOutput :=
  match j.lookup "score" with
  | some (JVal.jnum q) =>
    match j.lookup "feedback" with
    | some (JVal.jstr fb) =>
      let vt : Option (Option String) :=
        match j.lookup "violation_type" with
        | none => some none
        | some JVal.jnull => some none
        | some (JVal.jstr s) => some (some s)
        | some _ => none
      let ap : Option Bool :=
        match j.lookup "approved" with
        | none => some false
        | some (JVal.jbool b) => some b
        | some _ => none
      match vt, ap with
      | some v, some b =>
        some { score := q, feedback := fb, violation_type := v, approved := b }
      | _, _ => none
    | _ => none
  | _ => none

/- Concrete fixtures used by witness theorems. -/

/-- A concrete image-analysis result. -/
def imgW : ImageAnalysisOutput :=
  { jewellery_type := "ring", materials := "yellow gold", gemstones := "ruby"
    design_style := "modern", detailed_features := "plain band"
    color_palette := "warm", visual_context_summary := "warm gold ring" }

/-- A concrete concept. -/
def conW : ConceptOutput :=
  { title := "T", storytelling_concept := "S", aesthetic_direction := "A"
    lighting_mood := "L", product_focus_strategy := "F", narrative_flow := "N" }

/-- A concrete scene. -/
def sceneW : SceneDetail :=
  { sequence_number := 1, description := "hero shot", camera_angle := "macro"
    camera_movement := "slow orbit", lighting_setup := "soft key"
    focus_points := ["stone"], duration_estimate := 2 }

/-- A concrete visual plan. -/
def planW : VisualDirectorOutput :=
  { visual_style_summary := "premium", scenes := [sceneW], technical_notes := "none" }

/-- A concrete refinement output. -/
def promW : PromptRefinementOutput :=
  { final_prompt := "P", rationale := "R" }

/-- A QA approval (score 9.5). -/
def qaApprove : QAAgentOutput :=
  { score := 95 / 10, feedback := "good", critique_points := [], approved := true }

/-- A QA rejection (score 6). -/
def qaReject : QAAgentOutput :=
  { score := 6, feedback := "too flat", critique_points := ["flat"], approved := false }

/-- A Continuity approval. -/
def contApprove : ContinuityControlOutput :=
  { score := 10, feedback := "locks present", approved := true }

/-- A Continuity rejection. -/
def contReject : ContinuityControlOutput :=
  { score := 0, feedback := "missing lock", violation_type := some "Product Change"
    approved := false }

/-- A concrete generation result. -/
def genOutW : GenerationOutput :=
  { video_url := "http://v.mp4", generation_id := "gid-1", status := "success" }

/-- Oracles on which every gate approves and generation succeeds. -/
def agApprove : AgentOracles :=
  { imageAnalysis := fun _ => imgW
    concept := fun _ => conW
    visualDirector := fun _ _ => planW
    refine := fun _ _ => promW
    qa := fun _ _ _ => qaApprove
    continuity := fun _ _ => contApprove
    generate := fun _ => Except.ok genOutW }

/-- Oracles on which QA approves but Continuity rejects every iteration. -/
def agContRej : AgentOracles :=
  { agApprove with continuity := fun _ _ => contReject }

/-- Oracles whose refinement output carries a per-scene prompt list. -/
def agScenes : AgentOracles :=
  { agApprove with
    refine := fun _ _ =>
      { final_prompt := "P", individual_prompts := ["scene-1"], rationale := "R" } }

/-- A concrete request. -/
def reqW : GenerationRequest :=
  { product_description := some "minimal gold ring"
    jewellery_type := "ring", gender := "female", video_type := "ecommerce"
    duration := 8, base64_image := "IMGB64", is_music := true, is_model := false }

/-- `reqW` with a reference video path attached. -/
def reqRef : GenerationRequest :=
  { reqW with reference_video_path := some "ref.mp4" }

/-- The persistence world in which every step succeeds. -/
def wAllOk : PersistWorld := {}

/-- The persistence world in which directory creation fails. -/
def wMkdirFail : PersistWorld := { mkdirOk := false }

/-- A fallback response used to totalize `resultResponse`. -/
def fallbackResponse : GenerationResponse :=
  { video_url := "", generation_id := "", status := "", concept := conW
    visual_plan := planW, final_prompt := "", qa_score := 0, feedback_iterations := 0 }

/-- The response of a successful concrete run. -/
def resultResponse (ag : AgentOracles) (w : PersistWorld)
    (request : GenerationRequest) : GenerationResponse :=
  match processRequest ag w request with
  | Except.ok (r, _) => r
  | Except.error _ => fallbackResponse

/-- The event trace of a successful concrete run. -/
def resultTrace (ag : AgentOracles) (w : PersistWorld)
    (request : GenerationRequest) : List Event :=
  match processRequest ag w request with
  | Except.ok (_, t) => t
  | Except.error _ => []

/-- Whether an event is a call to the video-generation client. -/
def isGenerationCall : Event → Bool
  | Event.generationCall _ => true
  | _ => false

/-- Whether an event records a continuity rejection (or is not a continuity
call at all). -/
def contNotApproved : Event → Bool
  | Event.continuityCall _ co => !co.approved
  | _ => true

/-- Whether an event's refinement context carries no reference-video path
(vacuously true for non-refinement events). -/
def refineCtxNoRefVideo : Event → Bool
  | Event.refineCall _ ctx _ => ctx.reference_video_path.isNone
  | _ => true

/-- Whether a trace contains a refinement call. -/
def hasRefineCall (tr : List Event) : Bool :=
  tr.any (fun e => match e with
    | Event.refineCall _ _ _ => true
    | _ => false)

/-- The justification relation of C4: the feedback handed to the refinement
call of iteration `j` either is the initial `None` of iteration 1, or is the
prefixed feedback of exactly the gate that rejected iteration `j - 1`. -/
def Justified (j : ℕ) (fb : Option String) (tr : List Event) : Prop :=
  (j = 1 ∧ fb = none) ∨
  (∃ q, Event.qaCall (j - 1) q ∈ tr ∧ q.approved = false ∧
    fb = some ("QA Creative Feedback: " ++ q.feedback)) ∨
  (∃ co, Event.continuityCall (j - 1) co ∈ tr ∧ co.approved = false ∧
    fb = some ("STRICT RULE VIOLATION (" ++ pyStrOpt co.violation_type ++ "): " ++
      co.feedback))

/-- Every refinement call recorded in the trace carries justified feedback. -/
def FeedbackJustified (tr : List Event) : Prop :=
  ∀ j ctx p, Event.refineCall j ctx p ∈ tr → Justified j ctx.previous_feedback tr

/-- Every iteration-1 refinement call in the trace carries no feedback. -/
def FirstIterNone (tr : List Event) : Prop :=
  ∀ ctx p, Event.refineCall 1 ctx p ∈ tr → ctx.previous_feedback = none

/-- Every continuity call in the trace is immediately preceded by a QA call of
the same iteration whose verdict was an approval. -/
def QAPrecedes (tr : List Event) : Prop :=
  ∀ j co, Event.continuityCall j co ∈ tr →
    ∃ q l1 l2, q.approved = true ∧
      tr = l1 ++ Event.qaCall j q :: Event.continuityCall j co :: l2

/-- The JSON object of the C6 counterexample: a mid-scale score together with
an approval flag, exactly what the continuity system prompt forbids but the
schema validation accepts. -/
def jMidScore : List (String × JVal) :=
  [("score", JVal.jnum 5), ("feedback", JVal.jstr "partial compliance"),
   ("approved", JVal.jbool true)]

/-- A poll body reporting completion with a populated output list. -/
def pollBodyDone : PollBody :=
  { status := some "completed", outputs := JVal.jlist ["http://v.mp4"] }

/-- A poll body reporting failure with an upstream error message. -/
def pollBodyFail : PollBody :=
  { status := some "failed", error := some "boom" }

/-- Two transient non-200 responses followed by a completion. -/
def respSeqA : ℕ → PollResponse := fun j =>
  if j < 2 then PollResponse.non200 500 else PollResponse.http200 pollBodyDone

/-- Two transient non-200 responses followed by a failure. -/
def respSeqB : ℕ → PollResponse := fun j =>
  if j < 2 then PollResponse.non200 503 else PollResponse.http200 pollBodyFail

/-- An endless stream of non-terminal processing responses. -/
def respSeqC : ℕ → PollResponse := fun _ =>
  PollResponse.http200 { status := some "processing" }

/-! ## Lemmas about the refinement loop -/

/-- One loop iteration lands in exactly one of the three branch states,
according to the two gate verdicts. -/
theorem loopIter_cases (ag : AgentOracles) (request : GenerationRequest)
    (concept : ConceptOutput) (visual_plan : VisualDirectorOutput)
    (i : ℕ) (st : LoopState) :
    ((iterQA ag request concept visual_plan i st).approved = false ∧
      loopIter ag request concept visual_plan i st =
        qaRejState ag request concept visual_plan i st) ∨
    ((iterQA ag request concept visual_plan i st).approved = true ∧
      (iterCont ag request concept visual_plan i st).approved = false ∧
      loopIter ag request concept visual_plan i st =
        contRejState ag request concept visual_plan i st) ∨
    ((iterQA ag request concept visual_plan i st).approved = true ∧
      (iterCont ag request concept visual_plan i st).approved = true ∧
      loopIter ag request concept visual_plan i st =
        approvedState ag request concept visual_plan i st) := by
  by_cases hq : (iterQA ag request concept visual_plan i st).approved = true
  · by_cases hc : (iterCont ag request concept visual_plan i st).approved = true
    · refine Or.inr (Or.inr ⟨hq, hc, ?_⟩)
      simp [loopIter, hq, hc, approvedState, List.append_assoc]
    · refine Or.inr (Or.inl ⟨hq, by simpa using hc, ?_⟩)
      simp only [Bool.not_eq_true] at hc
      simp [loopIter, hq, hc, contRejState, List.append_assoc]
  · refine Or.inl ⟨by simpa using hq, ?_⟩
    simp only [Bool.not_eq_true] at hq
    simp [loopIter, hq, qaRejState]

/-- The iteration counter after loop iteration `i` is `i + 1`. -/
theorem loopIter_iterations (ag : AgentOracles) (request : GenerationRequest)
    (concept : ConceptOutput) (visual_plan : VisualDirectorOutput)
    (i : ℕ) (st : LoopState) :
    (loopIter ag request concept visual_plan i st).iterations = i + 1 := by
  rcases loopIter_cases ag request concept visual_plan i st with
    ⟨_, h⟩ | ⟨_, _, h⟩ | ⟨_, _, h⟩ <;> rw [h] <;> rfl

/-- After a loop iteration, `final_prompt_output` holds that iteration's
refinement output. -/
theorem loopIter_fpo (ag : AgentOracles) (request : GenerationRequest)
    (concept : ConceptOutput) (visual_plan : VisualDirectorOutput)
    (i : ℕ) (st : LoopState) :
    (loopIter ag request concept visual_plan i st).final_prompt_output =
      some (iterPrompt ag concept visual_plan i st) := by
  rcases loopIter_cases ag request concept visual_plan i st with
    ⟨_, h⟩ | ⟨_, _, h⟩ | ⟨_, _, h⟩ <;> rw [h] <;> rfl

/-- After a loop iteration, `qa_score` holds that iteration's QA score. -/
theorem loopIter_qa_score (ag : AgentOracles) (request : GenerationRequest)
    (concept : ConceptOutput) (visual_plan : VisualDirectorOutput)
    (i : ℕ) (st : LoopState) :
    (loopIter ag request concept visual_plan i st).qa_score =
      (iterQA ag request concept visual_plan i st).score := by
  rcases loopIter_cases ag request concept visual_plan i st with
    ⟨_, h⟩ | ⟨_, _, h⟩ | ⟨_, _, h⟩ <;> rw [h] <;> rfl

/-- A loop iteration extends the event trace (by its own block of events). -/
theorem loopIter_events_ext (ag : AgentOracles) (request : GenerationRequest)
    (concept : ConceptOutput) (visual_plan : VisualDirectorOutput)
    (i : ℕ) (st : LoopState) :
    ∃ tail, (loopIter ag request concept visual_plan i st).events =
      st.events ++ tail := by
  rcases loopIter_cases ag request concept visual_plan i st with
    ⟨_, h⟩ | ⟨_, _, h⟩ | ⟨_, _, h⟩ <;> rw [h]
  · exact ⟨_, rfl⟩
  · exact ⟨_, rfl⟩
  · exact ⟨_, rfl⟩

/-- Each loop iteration records its refinement call in the trace. -/
theorem loopIter_mem_refine (ag : AgentOracles) (request : GenerationRequest)
    (concept : ConceptOutput) (visual_plan : VisualDirectorOutput)
    (i : ℕ) (st : LoopState) :
    Event.refineCall (i + 1) (iterCtx concept visual_plan st)
      (iterPrompt ag concept visual_plan i st) ∈
      (loopIter ag request concept visual_plan i st).events := by
  rcases loopIter_cases ag request concept visual_plan i st with
    ⟨_, h⟩ | ⟨_, _, h⟩ | ⟨_, _, h⟩ <;> rw [h] <;>
    simp [qaRejState, contRejState, approvedState]

/-- Each loop iteration records its QA call in the trace. -/
theorem loopIter_mem_qa (ag : AgentOracles) (request : GenerationRequest)
    (concept : ConceptOutput) (visual_plan : VisualDirectorOutput)
    (i : ℕ) (st : LoopState) :
    Event.qaCall (i + 1) (iterQA ag request concept visual_plan i st) ∈
      (loopIter ag request concept visual_plan i st).events := by
  rcases loopIter_cases ag request concept visual_plan i st with
    ⟨_, h⟩ | ⟨_, _, h⟩ | ⟨_, _, h⟩ <;> rw [h] <;>
    simp [qaRejState, contRejState, approvedState]

/-- If a loop iteration sets the break flag, both gates approved and the
approving continuity verdict is recorded in the resulting trace. -/
theorem loopIter_broke_spec (ag : AgentOracles) (request : GenerationRequest)
    (concept : ConceptOutput) (visual_plan : VisualDirectorOutput)
    (i : ℕ) (st : LoopState) (hst : st.broke = false)
    (hb : (loopIter ag request concept visual_plan i st).broke = true) :
    (iterCont ag request concept visual_plan i st).approved = true ∧
      Event.continuityCall (i + 1) (iterCont ag request concept visual_plan i st) ∈
        (loopIter ag request concept visual_plan i st).events := by
  rcases loopIter_cases ag request concept visual_plan i st with
    ⟨_, h⟩ | ⟨_, _, h⟩ | ⟨_, hc, h⟩
  · rw [h] at hb; simp [qaRejState, hst] at hb
  · rw [h] at hb; simp [contRejState, hst] at hb
  · exact ⟨hc, by rw [h]; simp [approvedState]⟩

/-- A loop iteration adds no video-generation call to the trace. -/
theorem loopIter_countGen (ag : AgentOracles) (request : GenerationRequest)
    (concept : ConceptOutput) (visual_plan : VisualDirectorOutput)
    (i : ℕ) (st : LoopState) :
    (loopIter ag request concept visual_plan i st).events.countP isGenerationCall =
      st.events.countP isGenerationCall := by
  rcases loopIter_cases ag request concept visual_plan i st with
    ⟨_, h⟩ | ⟨_, _, h⟩ | ⟨_, _, h⟩ <;> rw [h] <;>
    simp [qaRejState, contRejState, approvedState, List.countP_append,
      List.countP_cons, isGenerationCall]

/-- A guarded iteration either skips (after a break) or executes the body. -/
theorem guardedIter_cases (ag : AgentOracles) (request : GenerationRequest)
    (concept : ConceptOutput) (visual_plan : VisualDirectorOutput)
    (i : ℕ) (st : LoopState) :
    (st.broke = true ∧ guardedIter ag request concept visual_plan i st = st) ∨
    (st.broke = false ∧ guardedIter ag request concept visual_plan i st =
      loopIter ag request concept visual_plan i st) := by
  by_cases h : st.broke = true
  · exact Or.inl ⟨h, by simp [guardedIter, h]⟩
  · simp only [Bool.not_eq_true] at h
    exact Or.inr ⟨h, by simp [guardedIter, h]⟩

/-- A guarded iteration extends the event trace. -/
theorem guardedIter_events_ext (ag : AgentOracles) (request : GenerationRequest)
    (concept : ConceptOutput) (visual_plan : VisualDirectorOutput)
    (i : ℕ) (st : LoopState) :
    ∃ tail, (guardedIter ag request concept visual_plan i st).events =
      st.events ++ tail := by
  rcases guardedIter_cases ag request concept visual_plan i st with ⟨_, h⟩ | ⟨_, h⟩
  · exact ⟨[], by rw [h]; simp⟩
  · rw [h]; exact loopIter_events_ext ag request concept visual_plan i st

/-- A guarded iteration preserves a populated `final_prompt_output`. -/
theorem guardedIter_fpo (ag : AgentOracles) (request : GenerationRequest)
    (concept : ConceptOutput) (visual_plan : VisualDirectorOutput)
    (i : ℕ) (st : LoopState) (h : ∃ p, st.final_prompt_output = some p) :
    ∃ p, (guardedIter ag request concept visual_plan i st).final_prompt_output =
      some p := by
  rcases guardedIter_cases ag request concept visual_plan i st with ⟨_, hg⟩ | ⟨_, hg⟩
  · rw [hg]; exact h
  · rw [hg]; exact ⟨_, loopIter_fpo ag request concept visual_plan i st⟩

/-- A guarded iteration adds no video-generation call to the trace. -/
theorem guardedIter_countGen (ag : AgentOracles) (request : GenerationRequest)
    (concept : ConceptOutput) (visual_plan : VisualDirectorOutput)
    (i : ℕ) (st : LoopState) :
    (guardedIter ag request concept visual_plan i st).events.countP isGenerationCall =
      st.events.countP isGenerationCall := by
  rcases guardedIter_cases ag request concept visual_plan i st with ⟨_, h⟩ | ⟨_, h⟩
  · rw [h]
  · rw [h]; exact loopIter_countGen ag request concept visual_plan i st

/-- The loop always leaves a populated `final_prompt_output`: iteration 1
runs unconditionally and every branch stores its refinement output. -/
theorem runLoop_fpo (ag : AgentOracles) (request : GenerationRequest)
    (concept : ConceptOutput) (visual_plan : VisualDirectorOutput) :
    ∃ p, (runLoop ag request concept visual_plan).final_prompt_output = some p := by
  unfold runLoop
  refine guardedIter_fpo _ _ _ _ _ _ (guardedIter_fpo _ _ _ _ _ _ ?_)
  exact ⟨_, loopIter_fpo ag request concept visual_plan 0 {}⟩

/-- The loop counter is between 1 and 3 on every run. -/
theorem runLoop_iterations_bounds (ag : AgentOracles) (request : GenerationRequest)
    (concept : ConceptOutput) (visual_plan : VisualDirectorOutput) :
    1 ≤ (runLoop ag request concept visual_plan).iterations ∧
      (runLoop ag request concept visual_plan).iterations ≤ 3 := by
  unfold runLoop
  have h1 := loopIter_iterations ag request concept visual_plan 0 {}
  rcases guardedIter_cases ag request concept visual_plan 1
      (loopIter ag request concept visual_plan 0 {}) with ⟨_, h2⟩ | ⟨_, h2⟩ <;>
    rcases guardedIter_cases ag request concept visual_plan 2
        (guardedIter ag request concept visual_plan 1
          (loopIter ag request concept visual_plan 0 {})) with ⟨_, h3⟩ | ⟨_, h3⟩ <;>
    rw [h3] <;> rw [h2] <;>
    simp [h1, loopIter_iterations]

/-- `_save_assets` never raises: its body runs inside `try/except` and the
handler only logs. -/
theorem saveAssets_never_raises (w : PersistWorld) (generation_id video_url : String)
    (concept : ConceptOutput) (visual_plan : VisualDirectorOutput)
    (final_prompt : PromptRefinementOutput) (qa_output : Option QAAgentOutput)
    (continuity_output : Option ContinuityControlOutput) :
    saveAssets w generation_id video_url concept visual_plan final_prompt
      qa_output continuity_output = Except.ok () := by
  unfold saveAssets
  split <;> rfl

/-- The orchestrator's result does not depend on the persistence world. -/
theorem processRequest_world_independent (ag : AgentOracles)
    (w w' : PersistWorld) (request : GenerationRequest) :
    processRequest ag w request = processRequest ag w' request := by
  unfold processRequest
  simp only [saveAssets_never_raises]

/-- Forward evaluation of `process_request` once the loop state and the
generation outcome are known. -/
theorem processRequest_eq (ag : AgentOracles) (w : PersistWorld)
    (request : GenerationRequest) (p : PromptRefinementOutput)
    (hp : (orchestratorLoop ag request).final_prompt_output = some p)
    (g : GenerationOutput)
    (hg : ag.generate
      { prompt := p.final_prompt
        image_url := request.base64_image
        video_type := request.video_type
        duration := request.duration
        is_music := request.is_music
        is_model := request.is_model } = Except.ok g) :
    processRequest ag w request = Except.ok
      ({ video_url := g.video_url
         generation_id := g.generation_id
         status := g.status
         concept := orchestratorConcept ag request
         visual_plan := orchestratorPlan ag request
         final_prompt := p.final_prompt
         qa_score := (orchestratorLoop ag request).qa_score
         feedback_iterations := (orchestratorLoop ag request).iterations },
       (orchestratorLoop ag request).events ++
         [Event.generationCall p.final_prompt]) := by
  unfold processRequest
  simp only [hp, hg, saveAssets_never_raises]

/-- Inversion of a successful `process_request` run: the response and trace
are determined by the loop state and the generation result. -/
theorem processRequest_ok_inv (ag : AgentOracles) (w : PersistWorld)
    (request : GenerationRequest) (resp : GenerationResponse) (tr : List Event)
    (h : processRequest ag w request = Except.ok (resp, tr)) :
    ∃ p g,
      (orchestratorLoop ag request).final_prompt_output = some p ∧
      ag.generate
        { prompt := p.final_prompt
          image_url := request.base64_image
          video_type := request.video_type
          duration := request.duration
          is_music := request.is_music
          is_model := request.is_model } = Except.ok g ∧
      resp = { video_url := g.video_url
               generation_id := g.generation_id
               status := g.status
               concept := orchestratorConcept ag request
               visual_plan := orchestratorPlan ag request
               final_prompt := p.final_prompt
               qa_score := (orchestratorLoop ag request).qa_score
               feedback_iterations := (orchestratorLoop ag request).iterations } ∧
      tr = (orchestratorLoop ag request).events ++
        [Event.generationCall p.final_prompt] := by
  obtain ⟨p, hp⟩ := runLoop_fpo ag request (orchestratorConcept ag request)
    (orchestratorPlan ag request)
  have hp' : (orchestratorLoop ag request).final_prompt_output = some p := hp
  rcases hg : ag.generate
      { prompt := p.final_prompt
        image_url := request.base64_image
        video_type := request.video_type
        duration := request.duration
        is_music := request.is_music
        is_model := request.is_model } with e | g
  · exfalso
    unfold processRequest at h
    simp only [hp', hg] at h
    exact Except.noConfusion h
  · have := processRequest_eq ag w request p hp' g hg
    rw [this] at h
    have hpair := Except.ok.inj h
    refine ⟨p, g, hp', hg, ?_, ?_⟩
    · exact (congrArg Prod.fst hpair).symm
    · exact (congrArg Prod.snd hpair).symm

/-! ## Trace invariants: QA-before-Continuity and feedback justification -/

/-- The events of a QA-rejected iteration. -/
theorem qaRejState_events (ag : AgentOracles) (request : GenerationRequest)
    (concept : ConceptOutput) (visual_plan : VisualDirectorOutput)
    (i : ℕ) (st : LoopState) :
    (qaRejState ag request concept visual_plan i st).events = st.events ++
      [Event.refineCall (i + 1) (iterCtx concept visual_plan st)
        (iterPrompt ag concept visual_plan i st),
       Event.qaCall (i + 1) (iterQA ag request concept visual_plan i st)] := rfl

/-- The events of a Continuity-rejected iteration. -/
theorem contRejState_events (ag : AgentOracles) (request : GenerationRequest)
    (concept : ConceptOutput) (visual_plan : VisualDirectorOutput)
    (i : ℕ) (st : LoopState) :
    (contRejState ag request concept visual_plan i st).events = st.events ++
      [Event.refineCall (i + 1) (iterCtx concept visual_plan st)
        (iterPrompt ag concept visual_plan i st),
       Event.qaCall (i + 1) (iterQA ag request concept visual_plan i st),
       Event.continuityCall (i + 1) (iterCont ag request concept visual_plan i st)] := rfl

/-- The events of a fully approved iteration. -/
theorem approvedState_events (ag : AgentOracles) (request : GenerationRequest)
    (concept : ConceptOutput) (visual_plan : VisualDirectorOutput)
    (i : ℕ) (st : LoopState) :
    (approvedState ag request concept visual_plan i st).events = st.events ++
      [Event.refineCall (i + 1) (iterCtx concept visual_plan st)
        (iterPrompt ag concept visual_plan i st),
       Event.qaCall (i + 1) (iterQA ag request concept visual_plan i st),
       Event.continuityCall (i + 1) (iterCont ag request concept visual_plan i st)] := rfl

/-- `QAPrecedes` is stable under appending events that contain no continuity
call. -/
theorem qaPrecedes_append (tr extra : List Event) (h : QAPrecedes tr)
    (hx : ∀ j co, Event.continuityCall j co ∉ extra) :
    QAPrecedes (tr ++ extra) := by
  intro j co hmem
  rcases List.mem_append.1 hmem with hm | hm
  · obtain ⟨q, l1, l2, hq, htr⟩ := h j co hm
    exact ⟨q, l1, l2 ++ extra, hq, by rw [htr]; simp⟩
  · exact absurd hm (hx j co)

/-- Each loop iteration preserves the QA-before-Continuity trace property. -/
theorem loopIter_qaPrecedes (ag : AgentOracles) (request : GenerationRequest)
    (concept : ConceptOutput) (visual_plan : VisualDirectorOutput)
    (i : ℕ) (st : LoopState) (h : QAPrecedes st.events) :
    QAPrecedes (loopIter ag request concept visual_plan i st).events := by
  rcases loopIter_cases ag request concept visual_plan i st with
    ⟨hq, hE⟩ | ⟨hq, hc, hE⟩ | ⟨hq, hc, hE⟩
  · rw [hE, qaRejState_events]
    exact qaPrecedes_append st.events _ h (by intro j co; simp)
  · rw [hE, contRejState_events]
    intro j co hmem
    rcases List.mem_append.1 hmem with hm | hm
    · obtain ⟨q, l1, l2, hq', htr⟩ := h j co hm
      refine ⟨q, l1, l2 ++
        [Event.refineCall (i + 1) (iterCtx concept visual_plan st)
          (iterPrompt ag concept visual_plan i st),
         Event.qaCall (i + 1) (iterQA ag request concept visual_plan i st),
         Event.continuityCall (i + 1) (iterCont ag request concept visual_plan i st)],
        hq', ?_⟩
      rw [htr]; simp
    · simp only [List.mem_cons, List.not_mem_nil, or_false] at hm
      rcases hm with hm | hm | hm
      · exact absurd hm (by simp)
      · exact absurd hm (by simp)
      · obtain ⟨rfl, rfl⟩ := Event.continuityCall.inj hm
        refine ⟨iterQA ag request concept visual_plan i st,
          st.events ++ [Event.refineCall (i + 1) (iterCtx concept visual_plan st)
            (iterPrompt ag concept visual_plan i st)], [], hq, by simp⟩
  · rw [hE, approvedState_events]
    intro j co hmem
    rcases List.mem_append.1 hmem with hm | hm
    · obtain ⟨q, l1, l2, hq', htr⟩ := h j co hm
      refine ⟨q, l1, l2 ++
        [Event.refineCall (i + 1) (iterCtx concept visual_plan st)
          (iterPrompt ag concept visual_plan i st),
         Event.qaCall (i + 1) (iterQA ag request concept visual_plan i st),
         Event.continuityCall (i + 1) (iterCont ag request concept visual_plan i st)],
        hq', ?_⟩
      rw [htr]; simp
    · simp only [List.mem_cons, List.not_mem_nil, or_false] at hm
      rcases hm with hm | hm | hm
      · exact absurd hm (by simp)
      · exact absurd hm (by simp)
      · obtain ⟨rfl, rfl⟩ := Event.continuityCall.inj hm
        refine ⟨iterQA ag request concept visual_plan i st,
          st.events ++ [Event.refineCall (i + 1) (iterCtx concept visual_plan st)
            (iterPrompt ag concept visual_plan i st)], [], hq, by simp⟩

/-- Guard preservation of the QA-before-Continuity property. -/
theorem guardedIter_qaPrecedes (ag : AgentOracles) (request : GenerationRequest)
    (concept : ConceptOutput) (visual_plan : VisualDirectorOutput)
    (i : ℕ) (st : LoopState) (h : QAPrecedes st.events) :
    QAPrecedes (guardedIter ag request concept visual_plan i st).events := by
  rcases guardedIter_cases ag request concept visual_plan i st with ⟨_, hg⟩ | ⟨_, hg⟩
  · rw [hg]; exact h
  · rw [hg]; exact loopIter_qaPrecedes ag request concept visual_plan i st h

/-- The whole loop satisfies the QA-before-Continuity property. -/
theorem runLoop_qaPrecedes (ag : AgentOracles) (request : GenerationRequest)
    (concept : ConceptOutput) (visual_plan : VisualDirectorOutput) :
    QAPrecedes (runLoop ag request concept visual_plan).events := by
  unfold runLoop
  apply guardedIter_qaPrecedes
  apply guardedIter_qaPrecedes
  apply loopIter_qaPrecedes
  intro j co hm
  exact absurd hm (List.not_mem_nil _)

/-- `Justified` is stable under appending further events. -/
theorem justified_mono (j : ℕ) (fb : Option String) (tr extra : List Event)
    (h : Justified j fb tr) : Justified j fb (tr ++ extra) := by
  rcases h with h | ⟨q, hm, hq, hfb⟩ | ⟨co, hm, hc, hfb⟩
  · exact Or.inl h
  · exact Or.inr (Or.inl ⟨q, List.mem_append_left _ hm, hq, hfb⟩)
  · exact Or.inr (Or.inr ⟨co, List.mem_append_left _ hm, hc, hfb⟩)

/-- Each loop iteration preserves feedback justification, and either breaks or
leaves feedback justified for the next iteration. -/
theorem loopIter_feedback_inv (ag : AgentOracles) (request : GenerationRequest)
    (concept : ConceptOutput) (visual_plan : VisualDirectorOutput)
    (i : ℕ) (st : LoopState)
    (h1 : FeedbackJustified st.events)
    (h2 : Justified (i + 1) st.feedback st.events) :
    FeedbackJustified (loopIter ag request concept visual_plan i st).events ∧
      ((loopIter ag request concept visual_plan i st).broke = true ∨
        Justified (i + 2) (loopIter ag request concept visual_plan i st).feedback
          (loopIter ag request concept visual_plan i st).events) := by
  rcases loopIter_cases ag request concept visual_plan i st with
    ⟨hq, hE⟩ | ⟨hq, hc, hE⟩ | ⟨hq, hc, hE⟩
  · rw [hE]
    constructor
    · rw [qaRejState_events]
      intro j ctx p hm
      rcases List.mem_append.1 hm with hm | hm
      · exact justified_mono _ _ _ _ (h1 j ctx p hm)
      · simp only [List.mem_cons, List.not_mem_nil, or_false] at hm
        rcases hm with hm | hm
        · obtain ⟨rfl, rfl, rfl⟩ := Event.refineCall.inj hm
          exact justified_mono _ _ _ _ h2
        · exact absurd hm (by simp)
    · refine Or.inr (Or.inr (Or.inl ⟨iterQA ag request concept visual_plan i st, ?_, hq, rfl⟩))
      rw [qaRejState_events]
      simp
  · rw [hE]
    constructor
    · rw [contRejState_events]
      intro j ctx p hm
      rcases List.mem_append.1 hm with hm | hm
      · exact justified_mono _ _ _ _ (h1 j ctx p hm)
      · simp only [List.mem_cons, List.not_mem_nil, or_false] at hm
        rcases hm with hm | hm | hm
        · obtain ⟨rfl, rfl, rfl⟩ := Event.refineCall.inj hm
          exact justified_mono _ _ _ _ h2
        · exact absurd hm (by simp)
        · exact absurd hm (by simp)
    · refine Or.inr (Or.inr (Or.inr
        ⟨iterCont ag request concept visual_plan i st, ?_, hc, rfl⟩))
      rw [contRejState_events]
      simp
  · rw [hE]
    constructor
    · rw [approvedState_events]
      intro j ctx p hm
      rcases List.mem_append.1 hm with hm | hm
      · exact justified_mono _ _ _ _ (h1 j ctx p hm)
      · simp only [List.mem_cons, List.not_mem_nil, or_false] at hm
        rcases hm with hm | hm | hm
        · obtain ⟨rfl, rfl, rfl⟩ := Event.refineCall.inj hm
          exact justified_mono _ _ _ _ h2
        · exact absurd hm (by simp)
        · exact absurd hm (by simp)
    · exact Or.inl rfl

/-- Each loop iteration preserves the iteration-1 no-feedback property,
provided the loop starts with no feedback. -/
theorem loopIter_firstIter (ag : AgentOracles) (request : GenerationRequest)
    (concept : ConceptOutput) (visual_plan : VisualDirectorOutput)
    (i : ℕ) (st : LoopState)
    (h : FirstIterNone st.events) (h0 : i = 0 → st.feedback = none) :
    FirstIterNone (loopIter ag request concept visual_plan i st).events := by
  rcases loopIter_cases ag request concept visual_plan i st with
    ⟨_, hE⟩ | ⟨_, _, hE⟩ | ⟨_, _, hE⟩
  · rw [hE, qaRejState_events]
    intro ctx p hm
    rcases List.mem_append.1 hm with hm | hm
    · exact h ctx p hm
    · simp only [List.mem_cons, List.not_mem_nil, or_false] at hm
      rcases hm with hm | hm
      · obtain ⟨h1, rfl, rfl⟩ := Event.refineCall.inj hm
        exact h0 (by omega)
      · exact absurd hm (by simp)
  · rw [hE, contRejState_events]
    intro ctx p hm
    rcases List.mem_append.1 hm with hm | hm
    · exact h ctx p hm
    · simp only [List.mem_cons, List.not_mem_nil, or_false] at hm
      rcases hm with hm | hm | hm
      · obtain ⟨h1, rfl, rfl⟩ := Event.refineCall.inj hm
        exact h0 (by omega)
      · exact absurd hm (by simp)
      · exact absurd hm (by simp)
  · rw [hE, approvedState_events]
    intro ctx p hm
    rcases List.mem_append.1 hm with hm | hm
    · exact h ctx p hm
    · simp only [List.mem_cons, List.not_mem_nil, or_false] at hm
      rcases hm with hm | hm | hm
      · obtain ⟨h1, rfl, rfl⟩ := Event.refineCall.inj hm
        exact h0 (by omega)
      · exact absurd hm (by simp)
      · exact absurd hm (by simp)

/-! ## Lemmas about the poll loop -/

/-- A non-terminal response consumes one attempt and moves to the next. -/
theorem pollFrom_nonterminal (gid : String) (responses : ℕ → PollResponse)
    (i fuel : ℕ) (h : (responses i).nonTerminal = true) :
    pollFrom gid responses i (fuel + 1) = pollFrom gid responses (i + 1) fuel := by
  rcases hr : responses i with code | body
  · simp [pollFrom, hr]
  · rw [hr] at h
    simp only [PollResponse.nonTerminal, Bool.not_eq_eq_eq_not, Bool.not_true,
      Bool.or_eq_false_iff] at h
    simp [pollFrom, hr, h.1, h.2]

/-- Skipping a block of non-terminal responses. -/
theorem pollFrom_skip (gid : String) (responses : ℕ → PollResponse) :
    ∀ (m i fuel : ℕ), (∀ j, i ≤ j → j < i + m → (responses j).nonTerminal = true) →
      pollFrom gid responses i (m + fuel) = pollFrom gid responses (i + m) fuel := by
  intro m
  induction m with
  | zero => intro i fuel _; simp
  | succ n ih =>
    intro i fuel h
    have hstep : (responses i).nonTerminal = true := h i le_rfl (by omega)
    have harith : n + 1 + fuel = (n + fuel) + 1 := by omega
    rw [harith, pollFrom_nonterminal gid responses i (n + fuel) hstep,
      ih (i + 1) fuel (fun j hj1 hj2 => h j (by omega) (by omega))]
    have harith2 : i + 1 + n = i + (n + 1) := by omega
    rw [harith2]

/-- If the first terminal response within the attempt budget is a completion
with a populated output, polling returns that output's URL. -/
theorem pollFrom_completed (gid : String) (responses : ℕ → PollResponse)
    (k : ℕ) (body : PollBody) (hk : k < max_retries)
    (hpre : ∀ j, j < k → (responses j).nonTerminal = true)
    (hbody : responses k = PollResponse.http200 body)
    (hstatus : isCompletedStatus body.status = true)
    (hurl : (completedVideoUrl body).truthy = true) :
    pollGeneration gid responses = Except.ok
      { video_url := (completedVideoUrl body).asStr
        generation_id := gid
        status := "success" } := by
  unfold pollGeneration
  have hsplit : max_retries = k + (max_retries - k) := by omega
  rw [hsplit, pollFrom_skip gid responses k 0 (max_retries - k)
    (fun j hj1 hj2 => hpre j (by omega)), Nat.zero_add]
  obtain ⟨n, hn⟩ : ∃ n, max_retries - k = n + 1 := ⟨max_retries - k - 1, by omega⟩
  rw [hn]
  simp [pollFrom, hbody, hstatus, hurl]

/-- If the first terminal response within the attempt budget is a failure or
cancellation, polling raises carrying the upstream error message. -/
theorem pollFrom_failed (gid : String) (responses : ℕ → PollResponse)
    (k : ℕ) (body : PollBody) (hk : k < max_retries)
    (hpre : ∀ j, j < k → (responses j).nonTerminal = true)
    (hbody : responses k = PollResponse.http200 body)
    (hst : body.status = some "failed" ∨ body.status = some "canceled") :
    pollGeneration gid responses = Except.error (PollError.runtimeError
      ("Generation failed: " ++ body.error.getD "Unknown error")) := by
  have hc : isCompletedStatus body.status = false := by
    rcases hst with h | h <;> simp [isCompletedStatus, h]
  have hf : isFailedStatus body.status = true := by
    rcases hst with h | h <;> simp [isFailedStatus, h]
  unfold pollGeneration
  have hsplit : max_retries = k + (max_retries - k) := by omega
  rw [hsplit, pollFrom_skip gid responses k 0 (max_retries - k)
    (fun j hj1 hj2 => hpre j (by omega)), Nat.zero_add]
  obtain ⟨n, hn⟩ : ∃ n, max_retries - k = n + 1 := ⟨max_retries - k - 1, by omega⟩
  rw [hn]
  simp [pollFrom, hbody, hc, hf]

/-- If all 300 attempts see non-terminal responses (non-200 responses
included), polling times out. -/
theorem pollFrom_timeout (gid : String) (responses : ℕ → PollResponse)
    (h : ∀ j, j < max_retries → (responses j).nonTerminal = true) :
    pollGeneration gid responses = Except.error (PollError.timeoutError
      "Generation timed out polling after 600 seconds.") := by
  unfold pollGeneration
  have := pollFrom_skip gid responses max_retries 0 0
    (fun j hj1 hj2 => h j (by omega))
  calc pollFrom gid responses 0 max_retries
      = pollFrom gid responses (0 + max_retries) 0 := this
    _ = _ := rfl

/-- If no approved continuity verdict is recorded by an iteration, that
iteration does not break. -/
theorem broke_false_of_no_approved_cont (ag : AgentOracles)
    (request : GenerationRequest) (concept : ConceptOutput)
    (visual_plan : VisualDirectorOutput) (i : ℕ) (st : LoopState)
    (hst : st.broke = false)
    (hall : ∀ j co, Event.continuityCall j co ∈
      (loopIter ag request concept visual_plan i st).events → co.approved = false) :
    (loopIter ag request concept visual_plan i st).broke = false := by
  by_contra hb
  rw [Bool.not_eq_false] at hb
  obtain ⟨hca, hmem⟩ := loopIter_broke_spec ag request concept visual_plan i st hst hb
  have hfalse := hall _ _ hmem
  rw [hfalse] at hca
  exact Bool.noConfusion hca

/-- The whole loop leaves every refinement call's feedback justified. -/
theorem runLoop_feedbackJustified (ag : AgentOracles) (request : GenerationRequest)
    (concept : ConceptOutput) (visual_plan : VisualDirectorOutput) :
    FeedbackJustified (runLoop ag request concept visual_plan).events := by
  unfold runLoop
  have base1 : FeedbackJustified (({} : LoopState)).events := by
    intro j ctx p hm
    exact absurd hm (List.not_mem_nil _)
  have base2 : Justified (0 + 1) (({} : LoopState)).feedback (({} : LoopState)).events :=
    Or.inl ⟨rfl, rfl⟩
  have step1 := loopIter_feedback_inv ag request concept visual_plan 0 {} base1 base2
  rcases guardedIter_cases ag request concept visual_plan 1
      (loopIter ag request concept visual_plan 0 {}) with ⟨hb, hgeq⟩ | ⟨hb, hgeq⟩
  · rw [hgeq]
    rcases guardedIter_cases ag request concept visual_plan 2
        (loopIter ag request concept visual_plan 0 {}) with ⟨_, hg2⟩ | ⟨hb2, hg2⟩
    · rw [hg2]; exact step1.1
    · rw [hb] at hb2; exact Bool.noConfusion hb2
  · rw [hgeq]
    have hJ1 : Justified (1 + 1)
        (loopIter ag request concept visual_plan 0 {}).feedback
        (loopIter ag request concept visual_plan 0 {}).events := by
      rcases step1.2 with hbk | hJ
      · rw [hb] at hbk; exact Bool.noConfusion hbk
      · exact hJ
    have step2 := loopIter_feedback_inv ag request concept visual_plan 1 _ step1.1 hJ1
    rcases guardedIter_cases ag request concept visual_plan 2
        (loopIter ag request concept visual_plan 1
          (loopIter ag request concept visual_plan 0 {})) with ⟨_, hg2⟩ | ⟨hb2, hg2⟩
    · rw [hg2]; exact step2.1
    · rw [hg2]
      have hJ2 : Justified (2 + 1)
          (loopIter ag request concept visual_plan 1
            (loopIter ag request concept visual_plan 0 {})).feedback
          (loopIter ag request concept visual_plan 1
            (loopIter ag request concept visual_plan 0 {})).events := by
        rcases step2.2 with hbk | hJ
        · rw [hb2] at hbk; exact Bool.noConfusion hbk
        · exact hJ
      exact (loopIter_feedback_inv ag request concept visual_plan 2 _ step2.1 hJ2).1

/-- The whole loop records no feedback on iteration-1 refinement calls. -/
theorem runLoop_firstIterNone (ag : AgentOracles) (request : GenerationRequest)
    (concept : ConceptOutput) (visual_plan : VisualDirectorOutput) :
    FirstIterNone (runLoop ag request concept visual_plan).events := by
  unfold runLoop
  have h1 : FirstIterNone (loopIter ag request concept visual_plan 0 {}).events :=
    loopIter_firstIter ag request concept visual_plan 0 {}
      (by intro ctx p hm; exact absurd hm (List.not_mem_nil _)) (fun _ => rfl)
  have h2 : FirstIterNone (guardedIter ag request concept visual_plan 1
      (loopIter ag request concept visual_plan 0 {})).events := by
    rcases guardedIter_cases ag request concept visual_plan 1
        (loopIter ag request concept visual_plan 0 {}) with ⟨_, hg⟩ | ⟨_, hg⟩
    · rw [hg]; exact h1
    · rw [hg]
      exact loopIter_firstIter ag request concept visual_plan 1 _ h1
        (fun h => absurd h (by decide))
  rcases guardedIter_cases ag request concept visual_plan 2
      (guardedIter ag request concept visual_plan 1
        (loopIter ag request concept visual_plan 0 {})) with ⟨_, hg⟩ | ⟨_, hg⟩
  · rw [hg]; exact h2
  · rw [hg]
    exact loopIter_firstIter ag request concept visual_plan 2 _ h2
      (fun h => absurd h (by decide))

/-! ## Claim theorems -/

/-- C1: for every request the orchestrator answers, the `feedback_iterations`
reported in the response is at least 1 and at most the configured maximum of
3, regardless of how the QA and Continuity gates decide on each iteration. -/
theorem C1_feedback_iterations_bounded (ag : AgentOracles) (w : PersistWorld)
    (request : GenerationRequest) (resp : GenerationResponse) (tr : List Event)
    (h : processRequest ag w request = Except.ok (resp, tr)) :
    1 ≤ resp.feedback_iterations ∧ resp.feedback_iterations ≤ 3 := by
  obtain ⟨p, g, hp, hg, hresp, htr⟩ := processRequest_ok_inv ag w request resp tr h
  rw [hresp]
  exact runLoop_iterations_bounds ag request (orchestratorConcept ag request)
    (orchestratorPlan ag request)

/-- Witness for C1: a concrete run where every gate approves. -/
theorem C1_witness :
    1 ≤ (resultResponse agApprove wAllOk reqW).feedback_iterations ∧
      (resultResponse agApprove wAllOk reqW).feedback_iterations ≤ 3 :=
  C1_feedback_iterations_bounded agApprove wAllOk reqW
    (resultResponse agApprove wAllOk reqW) (resultTrace agApprove wAllOk reqW) rfl

/-- C2: in every run, a Continuity call at iteration `j` is immediately
preceded in the trace by the QA call of the same iteration `j`, and that QA
verdict was an approval — Continuity is never evaluated on a QA-rejected
prompt. -/
theorem C2_continuity_preceded_by_qa_approval (ag : AgentOracles)
    (w : PersistWorld) (request : GenerationRequest)
    (resp : GenerationResponse) (tr : List Event)
    (h : processRequest ag w request = Except.ok (resp, tr)) :
    ∀ j co, Event.continuityCall j co ∈ tr →
      ∃ q l1 l2, q.approved = true ∧
        tr = l1 ++ Event.qaCall j q :: Event.continuityCall j co :: l2 := by
  obtain ⟨p, g, hp, hg, hresp, htr⟩ := processRequest_ok_inv ag w request resp tr h
  subst htr
  exact qaPrecedes_append _ _
    (runLoop_qaPrecedes ag request (orchestratorConcept ag request)
      (orchestratorPlan ag request))
    (by intro j co; simp)

/-- Witness for C2: the approving run reaches Continuity at iteration 1. -/
theorem C2_witness :
    ∃ q l1 l2, q.approved = true ∧
      resultTrace agApprove wAllOk reqW = l1 ++ Event.qaCall 1 q ::
        Event.continuityCall 1 contApprove :: l2 :=
  C2_continuity_preceded_by_qa_approval agApprove wAllOk reqW
    (resultResponse agApprove wAllOk reqW) (resultTrace agApprove wAllOk reqW) rfl
    1 contApprove (by decide)

/-- C3: if every continuity verdict recorded by the loop is a rejection (so
no iteration is approved), the pipeline does not raise: it calls the video
generation client exactly once, with the prompt produced in iteration 3, and
returns `feedback_iterations = 3` carrying iteration 3's QA score — provided
generation itself succeeds. -/
theorem C3_all_rejected_best_effort (ag : AgentOracles) (w : PersistWorld)
    (request : GenerationRequest)
    (hrej : (orchestratorLoop ag request).events.all contNotApproved = true)
    (hgen : ∀ a, ∃ g, ag.generate a = Except.ok g) :
    ∃ resp tr, processRequest ag w request = Except.ok (resp, tr) ∧
      resp.feedback_iterations = 3 ∧
      tr.countP isGenerationCall = 1 ∧
      (∃ ctx p, Event.refineCall 3 ctx p ∈ tr ∧
        Event.generationCall p.final_prompt ∈ tr ∧
        resp.final_prompt = p.final_prompt) ∧
      (∃ q, Event.qaCall 3 q ∈ tr ∧ resp.qa_score = q.score) := by
  have hall : ∀ j co, Event.continuityCall j co ∈
      (orchestratorLoop ag request).events → co.approved = false := by
    intro j co hm
    have := List.all_eq_true.1 hrej _ hm
    simpa [contNotApproved] using this
  have h1 : (loopIter ag request (orchestratorConcept ag request)
      (orchestratorPlan ag request) 0 {}).broke = false := by
    apply broke_false_of_no_approved_cont ag request _ _ 0 {} rfl
    intro j co hm
    apply hall j co
    obtain ⟨t2, ht2⟩ := guardedIter_events_ext ag request
      (orchestratorConcept ag request) (orchestratorPlan ag request) 1
      (loopIter ag request (orchestratorConcept ag request)
        (orchestratorPlan ag request) 0 {})
    obtain ⟨t3, ht3⟩ := guardedIter_events_ext ag request
      (orchestratorConcept ag request) (orchestratorPlan ag request) 2
      (guardedIter ag request (orchestratorConcept ag request)
        (orchestratorPlan ag request) 1
        (loopIter ag request (orchestratorConcept ag request)
          (orchestratorPlan ag request) 0 {}))
    show Event.continuityCall j co ∈ (guardedIter ag request
      (orchestratorConcept ag request) (orchestratorPlan ag request) 2
      (guardedIter ag request (orchestratorConcept ag request)
        (orchestratorPlan ag request) 1
        (loopIter ag request (orchestratorConcept ag request)
          (orchestratorPlan ag request) 0 {}))).events
    rw [ht3, ht2]
    exact List.mem_append_left _ (List.mem_append_left _ hm)
  have hg1 : guardedIter ag request (orchestratorConcept ag request)
      (orchestratorPlan ag request) 1
      (loopIter ag request (orchestratorConcept ag request)
        (orchestratorPlan ag request) 0 {}) =
      loopIter ag request (orchestratorConcept ag request)
        (orchestratorPlan ag request) 1
        (loopIter ag request (orchestratorConcept ag request)
          (orchestratorPlan ag request) 0 {}) := by
    simp [guardedIter, h1]
  have h2 : (loopIter ag request (orchestratorConcept ag request)
      (orchestratorPlan ag request) 1
      (loopIter ag request (orchestratorConcept ag request)
        (orchestratorPlan ag request) 0 {})).broke = false := by
    apply broke_false_of_no_approved_cont ag request _ _ 1 _ h1
    intro j co hm
    apply hall j co
    obtain ⟨t3, ht3⟩ := guardedIter_events_ext ag request
      (orchestratorConcept ag request) (orchestratorPlan ag request) 2
      (guardedIter ag request (orchestratorConcept ag request)
        (orchestratorPlan ag request) 1
        (loopIter ag request (orchestratorConcept ag request)
          (orchestratorPlan ag request) 0 {}))
    show Event.continuityCall j co ∈ (guardedIter ag request
      (orchestratorConcept ag request) (orchestratorPlan ag request) 2
      (guardedIter ag request (orchestratorConcept ag request)
        (orchestratorPlan ag request) 1
        (loopIter ag request (orchestratorConcept ag request)
          (orchestratorPlan ag request) 0 {}))).events
    rw [ht3, hg1]
    exact List.mem_append_left _ hm
  have hOL : orchestratorLoop ag request =
      loopIter ag request (orchestratorConcept ag request)
        (orchestratorPlan ag request) 2
        (loopIter ag request (orchestratorConcept ag request)
          (orchestratorPlan ag request) 1
          (loopIter ag request (orchestratorConcept ag request)
            (orchestratorPlan ag request) 0 {})) := by
    show guardedIter ag request (orchestratorConcept ag request)
      (orchestratorPlan ag request) 2
      (guardedIter ag request (orchestratorConcept ag request)
        (orchestratorPlan ag request) 1
        (loopIter ag request (orchestratorConcept ag request)
          (orchestratorPlan ag request) 0 {})) = _
    rw [hg1]
    simp [guardedIter, h2]
  obtain ⟨g, hgg⟩ := hgen
    { prompt := (iterPrompt ag (orchestratorConcept ag request)
        (orchestratorPlan ag request) 2
        (loopIter ag request (orchestratorConcept ag request)
          (orchestratorPlan ag request) 1
          (loopIter ag request (orchestratorConcept ag request)
            (orchestratorPlan ag request) 0 {}))).final_prompt
      image_url := request.base64_image
      video_type := request.video_type
      duration := request.duration
      is_music := request.is_music
      is_model := request.is_model }
  have hfpo : (orchestratorLoop ag request).final_prompt_output =
      some (iterPrompt ag (orchestratorConcept ag request)
        (orchestratorPlan ag request) 2
        (loopIter ag request (orchestratorConcept ag request)
          (orchestratorPlan ag request) 1
          (loopIter ag request (orchestratorConcept ag request)
            (orchestratorPlan ag request) 0 {}))) := by
    rw [hOL]
    exact loopIter_fpo ag request _ _ 2 _
  have hPR := processRequest_eq ag w request _ hfpo g hgg
  refine ⟨_, _, hPR, ?_, ?_, ?_, ?_⟩
  · show (orchestratorLoop ag request).iterations = 3
    rw [hOL]
    exact loopIter_iterations ag request _ _ 2 _
  · rw [List.countP_append]
    have hz : (orchestratorLoop ag request).events.countP isGenerationCall = 0 := by
      rw [hOL, loopIter_countGen, loopIter_countGen, loopIter_countGen]
      rfl
    rw [hz]
    simp [isGenerationCall]
  · refine ⟨iterCtx (orchestratorConcept ag request) (orchestratorPlan ag request)
      (loopIter ag request (orchestratorConcept ag request)
        (orchestratorPlan ag request) 1
        (loopIter ag request (orchestratorConcept ag request)
          (orchestratorPlan ag request) 0 {})),
      iterPrompt ag (orchestratorConcept ag request) (orchestratorPlan ag request) 2
        (loopIter ag request (orchestratorConcept ag request)
          (orchestratorPlan ag request) 1
          (loopIter ag request (orchestratorConcept ag request)
            (orchestratorPlan ag request) 0 {})), ?_, ?_, rfl⟩
    · apply List.mem_append_left
      rw [hOL]
      exact loopIter_mem_refine ag request _ _ 2 _
    · apply List.mem_append_right
      simp
  · refine ⟨iterQA ag request (orchestratorConcept ag request)
      (orchestratorPlan ag request) 2
      (loopIter ag request (orchestratorConcept ag request)
        (orchestratorPlan ag request) 1
        (loopIter ag request (orchestratorConcept ag request)
          (orchestratorPlan ag request) 0 {})), ?_, ?_⟩
    · apply List.mem_append_left
      rw [hOL]
      exact loopIter_mem_qa ag request _ _ 2 _
    · show (orchestratorLoop ag request).qa_score = _
      rw [hOL]
      exact loopIter_qa_score ag request _ _ 2 _

/-- Witness for C3: a concrete run on which Continuity rejects all three
iterations and generation succeeds. -/
theorem C3_witness :
    ∃ resp tr, processRequest agContRej wAllOk reqW = Except.ok (resp, tr) ∧
      resp.feedback_iterations = 3 ∧
      tr.countP isGenerationCall = 1 ∧
      (∃ ctx p, Event.refineCall 3 ctx p ∈ tr ∧
        Event.generationCall p.final_prompt ∈ tr ∧
        resp.final_prompt = p.final_prompt) ∧
      (∃ q, Event.qaCall 3 q ∈ tr ∧ resp.qa_score = q.score) :=
  C3_all_rejected_best_effort agContRej wAllOk reqW rfl
    (fun _ => ⟨genOutW, rfl⟩)

/-- C4: the feedback entering the refinement call of iteration `j` is `none`
for iteration 1 and otherwise derives from exactly the gate that rejected
iteration `j - 1`: the QA feedback under a `QA Creative Feedback:` marker, or
the Continuity feedback under a `STRICT RULE VIOLATION` marker carrying the
violation tag — in particular it is never `none` after a rejection. -/
theorem C4_feedback_derivation (ag : AgentOracles) (w : PersistWorld)
    (request : GenerationRequest) (resp : GenerationResponse) (tr : List Event)
    (h : processRequest ag w request = Except.ok (resp, tr)) :
    (∀ j ctx p, Event.refineCall j ctx p ∈ tr →
      Justified j ctx.previous_feedback tr) ∧
    (∀ ctx p, Event.refineCall 1 ctx p ∈ tr → ctx.previous_feedback = none) := by
  obtain ⟨p, g, hp, hg, hresp, htr⟩ := processRequest_ok_inv ag w request resp tr h
  subst htr
  constructor
  · intro j ctx p' hm
    rcases List.mem_append.1 hm with hm | hm
    · exact justified_mono _ _ _ _
        (runLoop_feedbackJustified ag request (orchestratorConcept ag request)
          (orchestratorPlan ag request) j ctx p' hm)
    · simp at hm
  · intro ctx p' hm
    rcases List.mem_append.1 hm with hm | hm
    · exact runLoop_firstIterNone ag request (orchestratorConcept ag request)
        (orchestratorPlan ag request) ctx p' hm
    · simp at hm

/-- Witness for C4: in the run on which Continuity rejects everything,
iteration 2's feedback is the prefixed Continuity rejection of iteration 1. -/
theorem C4_witness :
    Justified 2
      ((refineContextOf conW planW
        (some "STRICT RULE VIOLATION (Product Change): missing lock")).previous_feedback)
      (resultTrace agContRej wAllOk reqW) :=
  (C4_feedback_derivation agContRej wAllOk reqW
      (resultResponse agContRej wAllOk reqW)
      (resultTrace agContRej wAllOk reqW) rfl).1 2
    (refineContextOf conW planW
      (some "STRICT RULE VIOLATION (Product Change): missing lock"))
    promW (by decide)

/-- C5: the poll loop, as a function of the poll-response sequence —
(a) a completion (or success) with a populated output reached within the 300
attempts yields a `GenerationOutput` whose `video_url` is the supplied
output; (b) a failure or cancellation reached within budget raises carrying
the upstream error message; (c) 300 non-terminal responses (non-200 included,
consuming attempts like any other) raise a timeout. -/
theorem C5_poll_loop_spec :
    (∀ (gid : String) (responses : ℕ → PollResponse) (k : ℕ) (body : PollBody),
      k < max_retries →
      (∀ j, j < k → (responses j).nonTerminal = true) →
      responses k = PollResponse.http200 body →
      isCompletedStatus body.status = true →
      (completedVideoUrl body).truthy = true →
      pollGeneration gid responses = Except.ok
        { video_url := (completedVideoUrl body).asStr
          generation_id := gid
          status := "success" }) ∧
    (∀ (gid : String) (responses : ℕ → PollResponse) (k : ℕ) (body : PollBody),
      k < max_retries →
      (∀ j, j < k → (responses j).nonTerminal = true) →
      responses k = PollResponse.http200 body →
      (body.status = some "failed" ∨ body.status = some "canceled") →
      pollGeneration gid responses = Except.error (PollError.runtimeError
        ("Generation failed: " ++ body.error.getD "Unknown error"))) ∧
    (∀ (gid : String) (responses : ℕ → PollResponse),
      (∀ j, j < max_retries → (responses j).nonTerminal = true) →
      pollGeneration gid responses = Except.error (PollError.timeoutError
        "Generation timed out polling after 600 seconds.")) :=
  ⟨pollFrom_completed, pollFrom_failed, pollFrom_timeout⟩

/-- Witness for C5: concrete response sequences for the three outcomes. -/
theorem C5_witness :
    pollGeneration "g" respSeqA = Except.ok
      { video_url := "http://v.mp4", generation_id := "g", status := "success" } ∧
    pollGeneration "g" respSeqB = Except.error (PollError.runtimeError
      "Generation failed: boom") ∧
    pollGeneration "g" respSeqC = Except.error (PollError.timeoutError
      "Generation timed out polling after 600 seconds.") :=
  ⟨C5_poll_loop_spec.1 "g" respSeqA 2 pollBodyDone (by decide) (by decide) rfl rfl rfl,
   C5_poll_loop_spec.2.1 "g" respSeqB 2 pollBodyFail (by decide) (by decide) rfl
     (Or.inl rfl),
   C5_poll_loop_spec.2.2 "g" respSeqC (fun _ _ => rfl)⟩

/-- C6 counterexample: the output validation accepts a continuity record with
score 5 and `approved = true`, so accepted values are not confined to scores
0 or 10 and approval is not tied to score 10. -/
theorem C6_counterexample :
    validateContinuityControlOutput jMidScore =
      some { score := 5, feedback := "partial compliance", approved := true } ∧
    (5 : ℚ) ≠ 0 ∧ (5 : ℚ) ≠ 10 :=
  ⟨rfl, by norm_num, by norm_num⟩

/-- C6 (amended): the validation applied to a Continuity Auditor reply
enforces only field types and defaults — any numeric score together with any
boolean `approved` is accepted unchanged, and a missing `approved` defaults
to `false`; the 0-or-10 and approval-iff-10 contract is only requested in the
agent's system prompt, not checked. -/
theorem C6_validation_enforces_types_only (q : ℚ) (fb : String) (b : Bool) :
    validateContinuityControlOutput
      [("score", JVal.jnum q), ("feedback", JVal.jstr fb),
       ("approved", JVal.jbool b)] =
      some { score := q, feedback := fb, violation_type := none, approved := b } ∧
    validateContinuityControlOutput
      [("score", JVal.jnum q), ("feedback", JVal.jstr fb)] =
      some { score := q, feedback := fb, violation_type := none, approved := false } :=
  ⟨rfl, rfl⟩

/-- C7: whenever the persistence body fails (directory creation, artifact
write or video download raising), `_save_assets` still returns normally and
the orchestrator's result is exactly the result it produces when persistence
succeeds. -/
theorem C7_persistence_failure_never_surfaces (ag : AgentOracles)
    (request : GenerationRequest) (w : PersistWorld)
    (generation_id video_url : String) (concept : ConceptOutput)
    (visual_plan : VisualDirectorOutput) (final_prompt : PromptRefinementOutput)
    (qa_output : Option QAAgentOutput)
    (continuity_output : Option ContinuityControlOutput) (e : String)
    (hfail : saveAssetsBody w generation_id video_url = Except.error e) :
    saveAssets w generation_id video_url concept visual_plan final_prompt
      qa_output continuity_output = Except.ok () ∧
    processRequest ag w request = processRequest ag wAllOk request :=
  ⟨saveAssets_never_raises w generation_id video_url concept visual_plan
    final_prompt qa_output continuity_output,
   processRequest_world_independent ag w wAllOk request⟩

/-- Witness for C7: a world whose directory creation fails. -/
theorem C7_witness :
    saveAssets wMkdirFail "gid-1" "http://v.mp4" conW planW promW none none =
      Except.ok () ∧
    processRequest agApprove wMkdirFail reqW = processRequest agApprove wAllOk reqW :=
  C7_persistence_failure_never_surfaces agApprove reqW wMkdirFail "gid-1"
    "http://v.mp4" conW planW promW none none "makedirs failed for gid-1" rfl

/-- C8: the response constructor in `process_request` omits
`individual_prompts`, so even when the final refinement output carries a
per-scene prompt list, the response's `individual_prompts` is the empty
default — the list is not propagated to the caller. -/
theorem C8_individual_prompts_dropped :
    (∀ (i : ℕ) (ctx : RefineContext),
      (agScenes.refine i ctx).individual_prompts = ["scene-1"]) ∧
    processRequest agScenes wAllOk reqW =
      Except.ok (resultResponse agScenes wAllOk reqW,
        resultTrace agScenes wAllOk reqW) ∧
    (resultResponse agScenes wAllOk reqW).individual_prompts = [] :=
  ⟨fun _ _ => rfl, rfl, rfl⟩

/-- C9: for a request carrying `reference_video_path`, the orchestrator's
refinement calls still receive a context whose `reference_video_path` is
`None` — the path is never forwarded (the orchestrator passes only
`concept, visual_plan, feedback`). -/
theorem C9_reference_video_never_forwarded :
    reqRef.reference_video_path = some "ref.mp4" ∧
    hasRefineCall (resultTrace agApprove wAllOk reqRef) = true ∧
    (resultTrace agApprove wAllOk reqRef).all refineCtxNoRefVideo = true :=
  ⟨rfl, rfl, rfl⟩

/-- C10: a request whose optional `product_description` is `None` makes the
endpoint's first log line raise `TypeError` (slicing `None`) outside the
`try` block, for every agent behaviour and persistence world — the
orchestrator is never invoked and the pipeline never starts. -/
theorem C10_missing_description_raises (ag : AgentOracles) (w : PersistWorld)
    (request : GenerationRequest) (h : request.product_description = none) :
    generate_video ag w request =
      Except.error (EndpointError.typeError "NoneType object is not subscriptable") := by
  unfold generate_video
  rw [h]

/-- Witness for C10: a concrete request with no description. -/
theorem C10_witness :
    generate_video agApprove wAllOk { reqW with product_description := none } =
      Except.error (EndpointError.typeError "NoneType object is not subscriptable") :=
  C10_missing_description_raises agApprove wAllOk
    { reqW with product_description := none } rfl

end Nimora
